import Mathlib

/-!
Verification development for the Procedural-Religion-Generator repository.

The repository is a thin orchestration layer around one external
text-generation call: it builds a prompt (`_create_religion_prompt`),
extracts and parses a JSON object from the raw response
(`_parse_response`), and coerces the parsed payload into a fixed nested
schema of pydantic models (`_convert_to_models`).  The two external
effects — the generative backend call (`model.generate_content`) and the
standard-library JSON parser (`json.loads`) — are not repository code;
every embedded function that uses them takes them as explicit functional
parameters (`gc : String → Except String String` for the backend and
`loads : String → Except String PyVal` for the parser).

Python payload values (the result of `json.loads` and the inputs to the
pydantic constructors) are embedded as `PyVal`: strings, lists and
string-keyed mappings, the shapes every claim under study exercises.
Errors are embedded as `Except String`, carrying the message the Python
code puts into the raised exception.
-/

/-- Embedded Python/JSON value universe: strings, lists and
string-keyed mappings. -/
inductive PyVal where
  | str : String → PyVal
  | list : List PyVal → PyVal
  | dict : List (String × PyVal) → PyVal

/-- `d.get(key)` on an embedded mapping: the value at the first matching
key, if any. -/
def pyGet (kvs : List (String × PyVal)) (key : String) : Option PyVal :=
  (kvs.find? (fun kv => kv.1 = key)).map (fun kv => kv.2)

/-- `d.get(key, default)` on an embedded mapping. -/
def pyGetD (kvs : List (String × PyVal)) (key : String) (dflt : PyVal) : PyVal :=
  (pyGet kvs key).getD dflt

/-- Python iteration (`for x in v`) over an embedded value: a list yields
its elements, a string yields its one-character substrings, a mapping
yields its keys. -/
def pyIter : PyVal → List PyVal
  | PyVal.str s => s.data.map (fun c => PyVal.str (String.singleton c))
  | PyVal.list l => l
  | PyVal.dict kvs => kvs.map (fun kv => PyVal.str kv.1)

/-- Explicit bind on `Except String`, used to keep the coercion pipeline
in the same sequential shape as the Python `try` body. -/
def bindE (e : Except String α) (f : α → Except String β) : Except String β :=
  match e with
  | Except.error m => Except.error m
  | Except.ok a => f a

/-- The Python loop `xs = []; for d in l: xs.append(Mk(d))` where `Mk`
may raise: builds the list in order, propagating the first failure. -/
def mapE (f : α → Except String β) : List α → Except String (List β)
  | [] => Except.ok []
  | a :: as =>
    bindE (f a) (fun b => bindE (mapE f as) (fun bs => Except.ok (b :: bs)))

/-- models.DeityType: the four-member enumeration. -/
inductive DeityType where
  | monotheistic
  | polytheistic
  | pantheistic
  | animistic
deriving Repr, DecidableEq

/-- `DeityType(v)`: enum coercion, `ValueError` outside the four member
values (or on a non-string value). -/
def DeityType.ofVal : PyVal → Except String DeityType
  | PyVal.str "monotheistic" => Except.ok DeityType.monotheistic
  | PyVal.str "polytheistic" => Except.ok DeityType.polytheistic
  | PyVal.str "pantheistic" => Except.ok DeityType.pantheistic
  | PyVal.str "animistic" => Except.ok DeityType.animistic
  | PyVal.str s => Except.error (String.singleton (Char.ofNat 39) ++ s ++ String.singleton (Char.ofNat 39) ++ " is not a valid DeityType")
  | _ => Except.error "is not a valid DeityType"

/-- models.Deity. -/
structure Deity where
  name : String
  title : String
  domain : String
  description : String
  attributes : List String
  symbols : List String
deriving Repr, DecidableEq

/-- models.SacredText. -/
structure SacredText where
  title : String
  content : String
  chapters : List String
  language : String
  origin_story : String
deriving Repr, DecidableEq

/-- models.Ritual. -/
structure Ritual where
  name : String
  purpose : String
  frequency : String
  participants : String
  steps : List String
  materials_needed : List String
  significance : String
deriving Repr, DecidableEq

/-- models.MoralRule. -/
structure MoralRule where
  rule : String
  description : String
  severity : String
  punishment : String
  reward : String
deriving Repr, DecidableEq

/-- models.MythologicalLegend. -/
structure MythologicalLegend where
  title : String
  story : String
  characters : List String
  moral_lesson : String
  cultural_impact : String
deriving Repr, DecidableEq

/-- models.RewardPunishment. -/
structure RewardPunishment where
  rewards : List String
  punishments : List String
  afterlife_concept : String
  judgment_criteria : List String
deriving Repr, DecidableEq

/-- models.Symbol (namespaced: the bare name is taken by the library). -/
structure Models.Symbol where
  name : String
  meaning : String
  visual_description : String
  usage_context : String
deriving Repr, DecidableEq

/-- models.Religion, the aggregate root. -/
structure Religion where
  name : String
  description : String
  deity_type : DeityType
  language : String
  deities : List Deity
  sacred_texts : List SacredText
  rituals : List Ritual
  moral_rules : List MoralRule
  legends : List MythologicalLegend
  reward_punishment : RewardPunishment
  symbols : List Models.Symbol
  core_beliefs : List String
  practices : List String
  holy_places : List String
  religious_leaders : String
  creation_myth : String
deriving Repr, DecidableEq

/-- pydantic validation of a required `str` field value. -/
def asStr : PyVal → Except String String
  | PyVal.str s => Except.ok s
  | _ => Except.error "str type expected"

/-- pydantic validation of a required `List[str]` field value. -/
def asStrList : PyVal → Except String (List String)
  | PyVal.list l => mapE asStr l
  | _ => Except.error "value is not a valid list"

/-- A required pydantic `str` field: absent keys raise
`field required`, non-string values fail validation. -/
def reqStr (kvs : List (String × PyVal)) (field : String) : Except String String :=
  match pyGet kvs field with
  | some v => asStr v
  | none => Except.error ("field required: " ++ field)

/-- A required pydantic `List[str]` field. -/
def reqStrList (kvs : List (String × PyVal)) (field : String) : Except String (List String) :=
  match pyGet kvs field with
  | some v => asStrList v
  | none => Except.error ("field required: " ++ field)

/-- `Deity(**data)`: requires a mapping supplying every declared field. -/
def mkDeity : PyVal → Except String Deity
  | PyVal.dict kvs =>
    bindE (reqStr kvs "name") (fun name =>
    bindE (reqStr kvs "title") (fun title =>
    bindE (reqStr kvs "domain") (fun domain =>
    bindE (reqStr kvs "description") (fun description =>
    bindE (reqStrList kvs "attributes") (fun attributes =>
    bindE (reqStrList kvs "symbols") (fun symbols =>
    Except.ok (Deity.mk name title domain description attributes symbols)))))))
  | _ => Except.error "argument after ** must be a mapping"

/-- `SacredText(**data)`. -/
def mkSacredText : PyVal → Except String SacredText
  | PyVal.dict kvs =>
    bindE (reqStr kvs "title") (fun title =>
    bindE (reqStr kvs "content") (fun content =>
    bindE (reqStrList kvs "chapters") (fun chapters =>
    bindE (reqStr kvs "language") (fun language =>
    bindE (reqStr kvs "origin_story") (fun origin_story =>
    Except.ok (SacredText.mk title content chapters language origin_story))))))
  | _ => Except.error "argument after ** must be a mapping"

/-- `Ritual(**data)`. -/
def mkRitual : PyVal → Except String Ritual
  | PyVal.dict kvs =>
    bindE (reqStr kvs "name") (fun name =>
    bindE (reqStr kvs "purpose") (fun purpose =>
    bindE (reqStr kvs "frequency") (fun frequency =>
    bindE (reqStr kvs "participants") (fun participants =>
    bindE (reqStrList kvs "steps") (fun steps =>
    bindE (reqStrList kvs "materials_needed") (fun materials_needed =>
    bindE (reqStr kvs "significance") (fun significance =>
    Except.ok (Ritual.mk name purpose frequency participants steps materials_needed significance))))))))
  | _ => Except.error "argument after ** must be a mapping"

/-- `MoralRule(**data)`. -/
def mkMoralRule : PyVal → Except String MoralRule
  | PyVal.dict kvs =>
    bindE (reqStr kvs "rule") (fun rule =>
    bindE (reqStr kvs "description") (fun description =>
    bindE (reqStr kvs "severity") (fun severity =>
    bindE (reqStr kvs "punishment") (fun punishment =>
    bindE (reqStr kvs "reward") (fun reward =>
    Except.ok (MoralRule.mk rule description severity punishment reward))))))
  | _ => Except.error "argument after ** must be a mapping"

/-- `MythologicalLegend(**data)`. -/
def mkLegend : PyVal → Except String MythologicalLegend
  | PyVal.dict kvs =>
    bindE (reqStr kvs "title") (fun title =>
    bindE (reqStr kvs "story") (fun story =>
    bindE (reqStrList kvs "characters") (fun characters =>
    bindE (reqStr kvs "moral_lesson") (fun moral_lesson =>
    bindE (reqStr kvs "cultural_impact") (fun cultural_impact =>
    Except.ok (MythologicalLegend.mk title story characters moral_lesson cultural_impact))))))
  | _ => Except.error "argument after ** must be a mapping"

/-- `RewardPunishment(**data)`: every field is required — the
empty-mapping fallback in `_convert_to_models` does not satisfy it. -/
def mkRewardPunishment : PyVal → Except String RewardPunishment
  | PyVal.dict kvs =>
    bindE (reqStrList kvs "rewards") (fun rewards =>
    bindE (reqStrList kvs "punishments") (fun punishments =>
    bindE (reqStr kvs "afterlife_concept") (fun afterlife_concept =>
    bindE (reqStrList kvs "judgment_criteria") (fun judgment_criteria =>
    Except.ok (RewardPunishment.mk rewards punishments afterlife_concept judgment_criteria)))))
  | _ => Except.error "argument after ** must be a mapping"

/-- `Symbol(**data)`. -/
def mkSymbol : PyVal → Except String Models.Symbol
  | PyVal.dict kvs =>
    bindE (reqStr kvs "name") (fun name =>
    bindE (reqStr kvs "meaning") (fun meaning =>
    bindE (reqStr kvs "visual_description") (fun visual_description =>
    bindE (reqStr kvs "usage_context") (fun usage_context =>
    Except.ok (Models.Symbol.mk name meaning visual_description usage_context)))))
  | _ => Except.error "argument after ** must be a mapping"

/-- Iterate a top-level array field of the payload, defaulting to the
empty list when the key is absent (`raw_data.get(key, [])`). -/
def iterField (kvs : List (String × PyVal)) (key : String) : List PyVal :=
  pyIter (pyGetD kvs key (PyVal.list []))

/-- Body of the `try` block of
`ReligionGenerator._convert_to_models`: walks each top-level array
field building one model per element, builds the singleton
`RewardPunishment` from the `reward_punishment` sub-mapping (or the
empty mapping), coerces `deity_type` through the `DeityType` enum
(defaulting to `"polytheistic"`), then validates the top-level scalar
and list fields of `Religion` with their source defaults. -/
def convertBody (kvs : List (String × PyVal)) : Except String Religion :=
  bindE (mapE mkDeity (iterField kvs "deities")) (fun deities =>
  bindE (mapE mkSacredText (iterField kvs "sacred_texts")) (fun sacred_texts =>
  bindE (mapE mkRitual (iterField kvs "rituals")) (fun rituals =>
  bindE (mapE mkMoralRule (iterField kvs "moral_rules")) (fun moral_rules =>
  bindE (mapE mkLegend (iterField kvs "legends")) (fun legends =>
  bindE (mkRewardPunishment (pyGetD kvs "reward_punishment" (PyVal.dict []))) (fun reward_punishment =>
  bindE (mapE mkSymbol (iterField kvs "symbols")) (fun symbols =>
  bindE (DeityType.ofVal (pyGetD kvs "deity_type" (PyVal.str "polytheistic"))) (fun deity_type =>
  bindE (asStr (pyGetD kvs "name" (PyVal.str "Unnamed Religion"))) (fun name =>
  bindE (asStr (pyGetD kvs "description" (PyVal.str ""))) (fun description =>
  bindE (asStr (pyGetD kvs "language" (PyVal.str "Turkish"))) (fun language =>
  bindE (asStrList (pyGetD kvs "core_beliefs" (PyVal.list []))) (fun core_beliefs =>
  bindE (asStrList (pyGetD kvs "practices" (PyVal.list []))) (fun practices =>
  bindE (asStrList (pyGetD kvs "holy_places" (PyVal.list []))) (fun holy_places =>
  bindE (asStr (pyGetD kvs "religious_leaders" (PyVal.str ""))) (fun religious_leaders =>
  bindE (asStr (pyGetD kvs "creation_myth" (PyVal.str ""))) (fun creation_myth =>
  Except.ok (Religion.mk name description deity_type language deities sacred_texts
    rituals moral_rules legends reward_punishment symbols core_beliefs practices
    holy_places religious_leaders creation_myth)))))))))))))))))

/-- `ReligionGenerator._convert_to_models`: any exception inside the
walk is caught and re-raised as a single
`ValueError("Data conversion error: ...")` wrapping the original
message; a non-mapping payload fails the first attribute access. -/
def ReligionGenerator.convert_to_models (raw_data : PyVal) : Except String Religion :=
  match raw_data with
  | PyVal.dict kvs =>
    match convertBody kvs with
    | Except.ok r => Except.ok r
    | Except.error e => Except.error ("Data conversion error: " ++ e)
  | _ => Except.error "Data conversion error: object has no attribute get"

/-- The Turkish entry of the language-directive table
(`language_map["Turkish"]`), also the fallback for unknown languages. -/
def turkishInstruction : String :=
  "TÜM İÇERİĞİ TÜRKÇE OLARAK ÜRET. Din adı, açıklamalar, tanrı isimleri, ritüeller, efsaneler - her şey Türkçe olsun."

/-- GeminiClient language_map: the fixed table of per-language
generation directives. -/
def GeminiClient.language_map : List (String × String) :=
  [("Turkish", turkishInstruction),
   ("English", "GENERATE ALL CONTENT IN ENGLISH. Religion name, descriptions, deity names, rituals, legends - everything should be in English."),
   ("Spanish", "GENERA TODO EL CONTENIDO EN ESPAÑOL. Nombre de la religión, descripciones, nombres de deidades, rituales, leyendas - todo debe estar en español."),
   ("French", "GÉNÉREZ TOUT LE CONTENU EN FRANÇAIS. Nom de la religion, descriptions, noms des divinités, rituels, légendes - tout doit être en français."),
   ("German", "GENERIEREN SIE ALLE INHALTE AUF DEUTSCH. Religionsname, Beschreibungen, Gottheitsnamen, Rituale, Legenden - alles sollte auf Deutsch sein."),
   ("Italian", "GENERA TUTTO IL CONTENUTO IN ITALIANO. Nome della religione, descrizioni, nomi delle divinità, rituali, leggende - tutto dovrebbe essere in italiano."),
   ("Portuguese", "GERE TODO O CONTEÚDO EM PORTUGUÊS. Nome da religião, descrições, nomes das divindades, rituais, lendas - tudo deve estar em português."),
   ("Russian", "СОЗДАЙТЕ ВЕСЬ КОНТЕНТ НА РУССКОМ ЯЗЫКЕ. Название религии, описания, имена божеств, ритуалы, легенды - все должно быть на русском языке."),
   ("Arabic", "أنشئ كل المحتوى باللغة العربية. اسم الدين، الأوصاف، أسماء الآلهة، الطقوس، الأساطير - كل شيء يجب أن يكون باللغة العربية."),
   ("Japanese", "すべてのコンテンツを日本語で生成してください。宗教名、説明、神々の名前、儀式、伝説 - すべて日本語である必要があります。"),
   ("Chinese", "用中文生成所有内容。宗教名称、描述、神祇名称、仪式、传说 - 一切都应该是中文。")]

/-- `GeminiClient._get_language_instructions`: table lookup with the
Turkish entry as the default for unknown languages. -/
def GeminiClient.get_language_instructions (language : String) : String :=
  match GeminiClient.language_map.find? (fun kv => kv.1 = language) with
  | some kv => kv.2
  | none => turkishInstruction

/-- Python `x or dflt` on an optional string: `None` and the empty
string both fall back to the default. -/
def pyOr (v : Option String) (dflt : String) : String :=
  match v with
  | some s => if s = "" then dflt else s
  | none => dflt

/-- The literal example JSON structure embedded in the religion prompt
(braces written as escapes), with the language interpolated into its
`language` line as in the source f-string. -/
def religionJsonTemplate (language : String) : String :=
  "\x7b\n" ++
  "    \"name\": \"Religion name\",\n" ++
  "    \"description\": \"General description of the religion\",\n" ++
  "    \"deity_type\": \"monotheistic|polytheistic|pantheistic|animistic\",\n" ++
  "    \"language\": \"" ++ language ++ "\",\n" ++
  "    \"deities\": [\n" ++
  "        \x7b\n" ++
  "            \"name\": \"Deity name\",\n" ++
  "            \"title\": \"Title\",\n" ++
  "            \"domain\": \"Power domain\",\n" ++
  "            \"description\": \"Description\",\n" ++
  "            \"attributes\": [\"attribute1\", \"attribute2\"],\n" ++
  "            \"symbols\": [\"symbol1\", \"symbol2\"]\n" ++
  "        \x7d\n" ++
  "    ],\n" ++
  "    \"sacred_texts\": [\n" ++
  "        \x7b\n" ++
  "            \"title\": \"Sacred text name\",\n" ++
  "            \"content\": \"Content summary\",\n" ++
  "            \"chapters\": [\"chapter1\", \"chapter2\"],\n" ++
  "            \"language\": \"Language\",\n" ++
  "            \"origin_story\": \"How it was created\"\n" ++
  "        \x7d\n" ++
  "    ],\n" ++
  "    \"rituals\": [\n" ++
  "        \x7b\n" ++
  "            \"name\": \"Ritual name\",\n" ++
  "            \"purpose\": \"Purpose\",\n" ++
  "            \"frequency\": \"Frequency\",\n" ++
  "            \"participants\": \"Participants\",\n" ++
  "            \"steps\": [\"step1\", \"step2\"],\n" ++
  "            \"materials_needed\": [\"material1\", \"material2\"],\n" ++
  "            \"significance\": \"Significance\"\n" ++
  "        \x7d\n" ++
  "    ],\n" ++
  "    \"moral_rules\": [\n" ++
  "        \x7b\n" ++
  "            \"rule\": \"Rule\",\n" ++
  "            \"description\": \"Description\",\n" ++
  "            \"severity\": \"Light|Medium|Heavy\",\n" ++
  "            \"punishment\": \"Punishment\",\n" ++
  "            \"reward\": \"Reward\"\n" ++
  "        \x7d\n" ++
  "    ],\n" ++
  "    \"legends\": [\n" ++
  "        \x7b\n" ++
  "            \"title\": \"Legend name\",\n" ++
  "            \"story\": \"Story\",\n" ++
  "            \"characters\": [\"character1\", \"character2\"],\n" ++
  "            \"moral_lesson\": \"Moral lesson\",\n" ++
  "            \"cultural_impact\": \"Cultural impact\"\n" ++
  "        \x7d\n" ++
  "    ],\n" ++
  "    \"reward_punishment\": \x7b\n" ++
  "        \"rewards\": [\"reward1\", \"reward2\"],\n" ++
  "        \"punishments\": [\"punishment1\", \"punishment2\"],\n" ++
  "        \"afterlife_concept\": \"Afterlife concept\",\n" ++
  "        \"judgment_criteria\": [\"criterion1\", \"criterion2\"]\n" ++
  "    \x7d,\n" ++
  "    \"symbols\": [\n" ++
  "        \x7b\n" ++
  "            \"name\": \"Symbol name\",\n" ++
  "            \"meaning\": \"Meaning\",\n" ++
  "            \"visual_description\": \"Visual description\",\n" ++
  "            \"usage_context\": \"Usage context\"\n" ++
  "        \x7d\n" ++
  "    ],\n" ++
  "    \"core_beliefs\": [\"belief1\", \"belief2\"],\n" ++
  "    \"practices\": [\"practice1\", \"practice2\"],\n" ++
  "    \"holy_places\": [\"holy place1\", \"holy place2\"],\n" ++
  "    \"religious_leaders\": \"Role of religious leaders\",\n" ++
  "    \"creation_myth\": \"Creation myth\"\n" ++
  "\x7d"

/-- `GeminiClient._create_religion_prompt`: echoes the five parameters
(with the `or`-fallbacks of the source f-string), embeds the language
directive and the literal JSON example, and appends the deity-type
reiteration block. -/
def GeminiClient.create_religion_prompt (theme culture : Option String)
    (complexity : String) (deity_type : Option String) (language : String) : String :=
  let language_instructions := GeminiClient.get_language_instructions language
  "\nYou are a creative religion designer. Create a detailed religion system according to the following criteria:\n\n" ++
  "Theme: " ++ pyOr theme "general" ++ "\n" ++
  "Culture: " ++ pyOr culture "universal" ++ "\n" ++
  "Complexity: " ++ complexity ++ "\n" ++
  "Deity Type: " ++ pyOr deity_type "polytheistic" ++ "\n" ++
  "Language: " ++ language ++ "\n\n" ++
  language_instructions ++
  "\n\nPlease create a religion system in the following JSON format:\n\n" ++
  religionJsonTemplate language ++
  "\n\nIMPORTANT: Set the deity_type field to \"" ++ pyOr deity_type "polytheistic" ++
  "\" exactly. Create a deity system that matches this parameter.\n\n" ++
  "- monotheistic: Single deity (example: Christianity, Islam)\n" ++
  "- polytheistic: Multiple deities (example: Ancient Greek, Norse mythology)  \n" ++
  "- pantheistic: God=Universe (example: Spinoza\x27s philosophy)\n" ++
  "- animistic: Everything has a spirit (example: Shamanism, indigenous religions)\n\n" ++
  "Please create a creative and detailed religion system. Fill every section and create a consistent mythology.\n"

/-- The opening-brace character, named to keep brace characters out of
literals. -/
def lbrace : Char := Char.ofNat 123

/-- The closing-brace character. -/
def rbrace : Char := Char.ofNat 125

/-- Python `s.find(c)`: index of the first occurrence, if any. -/
def strFind (s : String) (c : Char) : Option Nat :=
  s.data.findIdx? (fun x => x = c)

/-- Python `s.rfind(c)`: index of the last occurrence, if any. -/
def strRfind (s : String) (c : Char) : Option Nat :=
  match s.data.reverse.findIdx? (fun x => x = c) with
  | some j => some (s.data.length - 1 - j)
  | none => none

/-- Python `s[a:b]` for `0 ≤ a ≤ b` (empty when `b ≤ a`). -/
def pySlice (s : String) (a b : Nat) : String :=
  String.mk ((s.data.drop a).take (b - a))

/-- `GeminiClient._parse_response`: locate the first opening and last
closing brace; if either is absent the `ValueError` raised in the `try`
body is re-wrapped by the generic handler as a response-processing
error; otherwise the slice between them is handed to the JSON parser
(`loads`), whose failure is wrapped as a JSON parse error. -/
def GeminiClient.parse_response (loads : String → Except String PyVal)
    (response_text : String) : Except String PyVal :=
  match strFind response_text lbrace, strRfind response_text rbrace with
  | some start_idx, some last_idx =>
    let json_str := pySlice response_text start_idx (last_idx + 1)
    (match loads json_str with
     | Except.ok v => Except.ok v
     | Except.error e => Except.error ("JSON parse error: " ++ e))
  | _, _ => Except.error "Response processing error: Valid JSON format not found"

/-- `GeminiClient.generate_religion`: build the prompt, perform the
backend call (`gc`), parse the response; any failure in the `try` body
is wrapped as a Gemini API error. -/
def GeminiClient.generate_religion (gc : String → Except String String)
    (loads : String → Except String PyVal) (theme culture : Option String)
    (complexity : String) (deity_type : Option String) (language : String) :
    Except String PyVal :=
  let prompt := GeminiClient.create_religion_prompt theme culture complexity deity_type language
  match bindE (gc prompt) (fun text => GeminiClient.parse_response loads text) with
  | Except.ok v => Except.ok v
  | Except.error e => Except.error ("Gemini API error: " ++ e)

/-- The fixed component prompt table of
`GeminiClient.generate_specific_component`: exactly the three kinds
deity, ritual and legend, each a mini-template with the caller context
interpolated. -/
def GeminiClient.component_prompts (context : String) : List (String × String) :=
  [("deity",
    "\n            Design a creative deity/goddess. " ++ context ++ "\n            \n" ++
    "            In JSON format:\n            \x7b\n" ++
    "                \"name\": \"Deity name\",\n" ++
    "                \"title\": \"Title\", \n" ++
    "                \"domain\": \"Power domain\",\n" ++
    "                \"description\": \"Description\",\n" ++
    "                \"attributes\": [\"attribute1\", \"attribute2\"],\n" ++
    "                \"symbols\": [\"symbol1\", \"symbol2\"]\n" ++
    "            \x7d\n            "),
   ("ritual",
    "\n            Design a detailed religious ritual. " ++ context ++ "\n            \n" ++
    "            In JSON format:\n            \x7b\n" ++
    "                \"name\": \"Ritual name\",\n" ++
    "                \"purpose\": \"Purpose\",\n" ++
    "                \"frequency\": \"Frequency\", \n" ++
    "                \"participants\": \"Participants\",\n" ++
    "                \"steps\": [\"step1\", \"step2\"],\n" ++
    "                \"materials_needed\": [\"material1\", \"material2\"],\n" ++
    "                \"significance\": \"Significance\"\n" ++
    "            \x7d\n            "),
   ("legend",
    "\n            Write a mythological legend. " ++ context ++ "\n            \n" ++
    "            In JSON format:\n            \x7b\n" ++
    "                \"title\": \"Legend name\",\n" ++
    "                \"story\": \"Story\",\n" ++
    "                \"characters\": [\"character1\", \"character2\"],\n" ++
    "                \"moral_lesson\": \"Moral lesson\",\n" ++
    "                \"cultural_impact\": \"Cultural impact\"\n" ++
    "            \x7d\n            ")]

/-- `GeminiClient.generate_specific_component`: a component kind
outside the prompt table is rejected before any backend call; otherwise
the backend is called with the kind-specific template and the response
parsed, failures being wrapped as component generation errors. -/
def GeminiClient.generate_specific_component (gc : String → Except String String)
    (loads : String → Except String PyVal) (component_type : String)
    (context : String) : Except String PyVal :=
  let prompts := GeminiClient.component_prompts context
  match prompts.find? (fun kv => kv.1 = component_type) with
  | none => Except.error ("Unsupported component type: " ++ component_type)
  | some kv =>
    match bindE (gc kv.2) (fun text => GeminiClient.parse_response loads text) with
    | Except.ok v => Except.ok v
    | Except.error e => Except.error ("Component generation error: " ++ e)

/-- `ReligionGenerator.generate_religion`: the full pipeline — backend
call plus response parsing, then model coercion.  The surrounding
`try` only logs and re-raises, so no extra wrapping occurs here. -/
def ReligionGenerator.generate_religion (gc : String → Except String String)
    (loads : String → Except String PyVal) (theme culture : Option String)
    (complexity : String) (deity_type : Option String) (language : String) :
    Except String Religion :=
  bindE (GeminiClient.generate_religion gc loads theme culture complexity deity_type language)
    (fun raw_data => ReligionGenerator.convert_to_models raw_data)

/-- `ReligionGenerator.generate_specific_component`: extends the
context with the existing religion name and its comma-joined core
beliefs, then delegates to the client. -/
def ReligionGenerator.generate_specific_component (gc : String → Except String String)
    (loads : String → Except String PyVal) (component_type : String)
    (context : String) (existing_religion : Option Religion) : Except String PyVal :=
  let context :=
    match existing_religion with
    | some r =>
      context ++ " Existing religion: " ++ r.name ++ ". " ++
        "Core beliefs: " ++ String.intercalate ", " r.core_beliefs
    | none => context
  GeminiClient.generate_specific_component gc loads component_type context

/-- The fixed culture rotation list of
`generate_religion_variations`. -/
def cultures : List String := ["antik", "modern", "fantastik", "fütüristik", "tribal"]

/-- The fixed complexity rotation list of
`generate_religion_variations`. -/
def complexities : List String := ["simple", "medium", "complex"]

/-- `ReligionGenerator.generate_religion_variations`: loop `count`
times, rotating culture and complexity by index modulo list length,
appending each successful generation and skipping failures. -/
def ReligionGenerator.generate_religion_variations (gc : String → Except String String)
    (loads : String → Except String PyVal) (base_theme : String) (count : Nat) :
    List Religion :=
  (List.range count).foldl (fun variations i =>
    let culture := cultures.getD (i % cultures.length) ""
    let complexity := complexities.getD (i % complexities.length) ""
    match ReligionGenerator.generate_religion gc loads (some base_theme)
        (some culture) complexity none "Turkish" with
    | Except.ok religion => variations ++ [religion]
    | Except.error _ => variations) []

/-- `ReligionGenerator.expand_religion`: generate one component for the
religion and append it to the matching list.  The returned pair is the
post-call state of the (Python-mutable) religion argument together with
the call result: exceptions are re-raised unchanged and leave the
religion as it was. -/
def ReligionGenerator.expand_religion (gc : String → Except String String)
    (loads : String → Except String PyVal) (religion : Religion)
    (component_type : String) : Religion × Except String Religion :=
  match ReligionGenerator.generate_specific_component gc loads component_type
      ("Bu din için uygun bir " ++ component_type ++ " üret") (some religion) with
  | Except.error e => (religion, Except.error e)
  | Except.ok new_component =>
    if component_type = "deity" then
      match mkDeity new_component with
      | Except.error e => (religion, Except.error e)
      | Except.ok new_deity =>
        let updated := { religion with deities := religion.deities ++ [new_deity] }
        (updated, Except.ok updated)
    else if component_type = "ritual" then
      match mkRitual new_component with
      | Except.error e => (religion, Except.error e)
      | Except.ok new_ritual =>
        let updated := { religion with rituals := religion.rituals ++ [new_ritual] }
        (updated, Except.ok updated)
    else if component_type = "legend" then
      match mkLegend new_component with
      | Except.error e => (religion, Except.error e)
      | Except.ok new_legend =>
        let updated := { religion with legends := religion.legends ++ [new_legend] }
        (updated, Except.ok updated)
    else (religion, Except.ok religion)

/-- `Except.ok`-projection, used to phrase skip-on-failure collection. -/
def toOptionE (e : Except String α) : Option α :=
  match e with
  | Except.ok a => some a
  | Except.error _ => none

theorem bindE_ok {α β : Type} {e : Except String α} {f : α → Except String β} {b : β}
    (h : bindE e f = Except.ok b) : ∃ a, e = Except.ok a ∧ f a = Except.ok b := by
  cases e with
  | error m =>
    simp only [bindE] at h
    exact Except.noConfusion h
  | ok a => exact ⟨a, rfl, h⟩

theorem mapE_length {α β : Type} (f : α → Except String β) :
    ∀ {l : List α} {l' : List β}, mapE f l = Except.ok l' → l'.length = l.length := by
  intro l
  induction l with
  | nil =>
    intro l' h
    simp only [mapE] at h
    injection h with h
    subst h
    rfl
  | cons a as ih =>
    intro l' h
    simp only [mapE] at h
    obtain ⟨b, _, h⟩ := bindE_ok h
    obtain ⟨bs, hbs, h⟩ := bindE_ok h
    injection h with h
    subst h
    simp [ih hbs]

theorem pyGetD_some {kvs : List (String × PyVal)} {k : String} {v d : PyVal}
    (h : pyGet kvs k = some v) : pyGetD kvs k d = v := by
  rw [pyGetD, h]
  rfl

theorem pyGetD_none {kvs : List (String × PyVal)} {k : String} {d : PyVal}
    (h : pyGet kvs k = none) : pyGetD kvs k d = d := by
  rw [pyGetD, h]
  rfl

theorem convert_dict (kvs : List (String × PyVal)) :
    ReligionGenerator.convert_to_models (PyVal.dict kvs) =
      match convertBody kvs with
      | Except.ok r => Except.ok r
      | Except.error e => Except.error ("Data conversion error: " ++ e) := rfl

theorem convert_of_body_ok {kvs : List (String × PyVal)} {r : Religion}
    (h : convertBody kvs = Except.ok r) :
    ReligionGenerator.convert_to_models (PyVal.dict kvs) = Except.ok r := by
  rw [convert_dict, h]

theorem convert_of_body_error {kvs : List (String × PyVal)} {c : String}
    (h : convertBody kvs = Except.error c) :
    ReligionGenerator.convert_to_models (PyVal.dict kvs) =
      Except.error ("Data conversion error: " ++ c) := by
  rw [convert_dict, h]

theorem body_ok_of_convert {kvs : List (String × PyVal)} {r : Religion}
    (h : ReligionGenerator.convert_to_models (PyVal.dict kvs) = Except.ok r) :
    convertBody kvs = Except.ok r := by
  rw [convert_dict] at h
  cases hb : convertBody kvs with
  | ok r2 =>
    rw [hb] at h
    injection h with h
    subst h
    rfl
  | error c =>
    rw [hb] at h
    exact Except.noConfusion h

/-- Destructor for a successful coercion: every stage of the walk must
have succeeded with the corresponding field of the resulting record. -/
theorem convertBody_ok {kvs : List (String × PyVal)} {r : Religion}
    (h : convertBody kvs = Except.ok r) :
    mapE mkDeity (iterField kvs "deities") = Except.ok r.deities ∧
    mapE mkSacredText (iterField kvs "sacred_texts") = Except.ok r.sacred_texts ∧
    mapE mkRitual (iterField kvs "rituals") = Except.ok r.rituals ∧
    mapE mkMoralRule (iterField kvs "moral_rules") = Except.ok r.moral_rules ∧
    mapE mkLegend (iterField kvs "legends") = Except.ok r.legends ∧
    mkRewardPunishment (pyGetD kvs "reward_punishment" (PyVal.dict [])) = Except.ok r.reward_punishment ∧
    mapE mkSymbol (iterField kvs "symbols") = Except.ok r.symbols ∧
    DeityType.ofVal (pyGetD kvs "deity_type" (PyVal.str "polytheistic")) = Except.ok r.deity_type ∧
    asStr (pyGetD kvs "name" (PyVal.str "Unnamed Religion")) = Except.ok r.name ∧
    asStr (pyGetD kvs "description" (PyVal.str "")) = Except.ok r.description ∧
    asStr (pyGetD kvs "language" (PyVal.str "Turkish")) = Except.ok r.language ∧
    asStrList (pyGetD kvs "core_beliefs" (PyVal.list [])) = Except.ok r.core_beliefs ∧
    asStrList (pyGetD kvs "practices" (PyVal.list [])) = Except.ok r.practices ∧
    asStrList (pyGetD kvs "holy_places" (PyVal.list [])) = Except.ok r.holy_places ∧
    asStr (pyGetD kvs "religious_leaders" (PyVal.str "")) = Except.ok r.religious_leaders ∧
    asStr (pyGetD kvs "creation_myth" (PyVal.str "")) = Except.ok r.creation_myth := by
  unfold convertBody at h
  obtain ⟨ds, hds, h⟩ := bindE_ok h
  obtain ⟨ts, hts, h⟩ := bindE_ok h
  obtain ⟨rts, hrts, h⟩ := bindE_ok h
  obtain ⟨mrs, hmrs, h⟩ := bindE_ok h
  obtain ⟨lgs, hlgs, h⟩ := bindE_ok h
  obtain ⟨rp, hrp, h⟩ := bindE_ok h
  obtain ⟨sys, hsys, h⟩ := bindE_ok h
  obtain ⟨dt, hdt, h⟩ := bindE_ok h
  obtain ⟨nm, hnm, h⟩ := bindE_ok h
  obtain ⟨dsc, hdsc, h⟩ := bindE_ok h
  obtain ⟨lang, hlang, h⟩ := bindE_ok h
  obtain ⟨cb, hcb, h⟩ := bindE_ok h
  obtain ⟨pr, hpr, h⟩ := bindE_ok h
  obtain ⟨hp, hhp, h⟩ := bindE_ok h
  obtain ⟨rl, hrl, h⟩ := bindE_ok h
  obtain ⟨cm, hcm, h⟩ := bindE_ok h
  injection h with h
  subst h
  exact ⟨hds, hts, hrts, hmrs, hlgs, hrp, hsys, hdt, hnm, hdsc, hlang, hcb, hpr, hhp, hrl, hcm⟩

/-- A fully populated `reward_punishment` sub-mapping. -/
def rpFull : PyVal :=
  PyVal.dict [("rewards", PyVal.list [PyVal.str "bliss"]),
              ("punishments", PyVal.list []),
              ("afterlife_concept", PyVal.str "rebirth"),
              ("judgment_criteria", PyVal.list [])]

/-- A deity element supplying every required field. -/
def fullDeity : PyVal :=
  PyVal.dict [("name", PyVal.str "Aria"),
              ("title", PyVal.str "Dawn"),
              ("domain", PyVal.str "light"),
              ("description", PyVal.str "bringer of light"),
              ("attributes", PyVal.list [PyVal.str "kind"]),
              ("symbols", PyVal.list [PyVal.str "sun"])]

/-- A minimal payload on which coercion succeeds: one full deity plus a
full `reward_punishment`, everything else defaulted. -/
def okPayload : List (String × PyVal) :=
  [("deities", PyVal.list [fullDeity]), ("reward_punishment", rpFull)]

/-- The model record produced from `okPayload`. -/
def religionDefault : Religion :=
  Religion.mk "Unnamed Religion" "" DeityType.polytheistic "Turkish"
    [Deity.mk "Aria" "Dawn" "light" "bringer of light" ["kind"] ["sun"]]
    [] [] [] [] (RewardPunishment.mk ["bliss"] [] "rebirth" []) [] [] [] [] "" ""

/-- `okPayload` with an explicit valid deity type. -/
def payloadAnimistic : List (String × PyVal) :=
  ("deity_type", PyVal.str "animistic") :: okPayload

/-- `okPayload` with an invalid deity type. -/
def payloadBadDeityType : List (String × PyVal) :=
  ("deity_type", PyVal.str "cosmic") :: okPayload

/-- C1 counterexample: a payload mapping with no `reward_punishment`
key on which coercion, far from succeeding with an all-empty record,
fails — constructing RewardPunishment from the empty mapping does not
validate because all four of
its fields are required. -/
theorem c1_counterexample :
    pyGet [] "reward_punishment" = none ∧
    ReligionGenerator.convert_to_models (PyVal.dict []) =
      Except.error ("Data conversion error: " ++ "field required: rewards") :=
  ⟨rfl, rfl⟩

/-- C1 (amended): for every payload mapping with no
`reward_punishment` key, coercion fails with a data conversion error —
the empty-mapping fallback never satisfies the required fields of
`RewardPunishment`. -/
theorem c1_missing_reward_punishment_always_fails
    (kvs : List (String × PyVal)) (h : pyGet kvs "reward_punishment" = none) :
    ∃ c, ReligionGenerator.convert_to_models (PyVal.dict kvs) =
      Except.error ("Data conversion error: " ++ c) := by
  cases hb : convertBody kvs with
  | error c => exact ⟨c, convert_of_body_error hb⟩
  | ok r =>
    exfalso
    have hrp := (convertBody_ok hb).2.2.2.2.2.1
    rw [pyGetD_none h] at hrp
    have hempty : mkRewardPunishment (PyVal.dict []) =
        Except.error "field required: rewards" := rfl
    rw [hempty] at hrp
    exact Except.noConfusion hrp

/-- C1 witness: the empty payload has no `reward_punishment` key and
its coercion fails with a data conversion error. -/
theorem c1_witness :
    pyGet [] "reward_punishment" = none ∧
    ∃ c, ReligionGenerator.convert_to_models (PyVal.dict []) =
      Except.error ("Data conversion error: " ++ c) :=
  ⟨rfl, c1_missing_reward_punishment_always_fails [] rfl⟩

/-- C2 counterexample: a payload whose single deity element omits the
scalar field `title`; instead of defaulting the field to empty text,
coercion fails with a data conversion error. -/
theorem c2_counterexample :
    ReligionGenerator.convert_to_models
      (PyVal.dict [("deities", PyVal.list [PyVal.dict [("name", PyVal.str "X")]]),
                   ("reward_punishment", rpFull)]) =
      Except.error ("Data conversion error: " ++ "field required: title") :=
  rfl

/-- C2 (amended): whenever coercion succeeds, it has constructed
exactly one record per element of each top-level array field; but a
scalar field absent from an element is not defaulted — it makes the
whole conversion fail (see the counterexample). -/
theorem c2_one_record_per_element_on_success
    (kvs : List (String × PyVal)) (r : Religion)
    (h : ReligionGenerator.convert_to_models (PyVal.dict kvs) = Except.ok r) :
    r.deities.length = (iterField kvs "deities").length ∧
    r.sacred_texts.length = (iterField kvs "sacred_texts").length ∧
    r.rituals.length = (iterField kvs "rituals").length ∧
    r.moral_rules.length = (iterField kvs "moral_rules").length ∧
    r.legends.length = (iterField kvs "legends").length ∧
    r.symbols.length = (iterField kvs "symbols").length := by
  obtain ⟨hds, hts, hrts, hmrs, hlgs, _, hsys, _⟩ := convertBody_ok (body_ok_of_convert h)
  exact ⟨mapE_length _ hds, mapE_length _ hts, mapE_length _ hrts,
    mapE_length _ hmrs, mapE_length _ hlgs, mapE_length _ hsys⟩

/-- C2 witness: the sample payload with one full deity element coerces
to a record with exactly one deity and empty other lists. -/
theorem c2_witness :
    religionDefault.deities.length = (iterField okPayload "deities").length ∧
    religionDefault.sacred_texts.length = (iterField okPayload "sacred_texts").length ∧
    religionDefault.rituals.length = (iterField okPayload "rituals").length ∧
    religionDefault.moral_rules.length = (iterField okPayload "moral_rules").length ∧
    religionDefault.legends.length = (iterField okPayload "legends").length ∧
    religionDefault.symbols.length = (iterField okPayload "symbols").length :=
  c2_one_record_per_element_on_success okPayload religionDefault rfl

/-- C4 counterexample: a payload with `deity_type` absent on which
coercion does not succeed at all (its `reward_punishment` is also
absent), refuting the unconditional "coercion succeeds and defaults
deityType to polytheistic". -/
theorem c4_counterexample :
    pyGet [] "deity_type" = none ∧
    ReligionGenerator.convert_to_models (PyVal.dict []) =
      Except.error ("Data conversion error: " ++ "field required: rewards") :=
  ⟨rfl, rfl⟩

/-- C4 (amended): the deity-type field coercion behaves as claimed
relative to overall success — when coercion succeeds, `deity_type`
equals the valid payload value, or `polytheistic` when the key is
absent; a `deity_type` value outside the four-member enumeration always
makes the whole conversion fail with a data conversion error. -/
theorem c4_deity_type_coercion :
    (∀ kvs v d r, pyGet kvs "deity_type" = some (PyVal.str v) →
      DeityType.ofVal (PyVal.str v) = Except.ok d →
      ReligionGenerator.convert_to_models (PyVal.dict kvs) = Except.ok r →
      r.deity_type = d) ∧
    (∀ kvs r, pyGet kvs "deity_type" = none →
      ReligionGenerator.convert_to_models (PyVal.dict kvs) = Except.ok r →
      r.deity_type = DeityType.polytheistic) ∧
    (∀ kvs v m, pyGet kvs "deity_type" = some (PyVal.str v) →
      DeityType.ofVal (PyVal.str v) = Except.error m →
      ∃ c, ReligionGenerator.convert_to_models (PyVal.dict kvs) =
        Except.error ("Data conversion error: " ++ c)) := by
  refine ⟨?_, ?_, ?_⟩
  · intro kvs v d r hget hok hconv
    have hdt := (convertBody_ok (body_ok_of_convert hconv)).2.2.2.2.2.2.2.1
    rw [pyGetD_some hget, hok] at hdt
    injection hdt with hdt
    exact hdt.symm
  · intro kvs r hget hconv
    have hdt := (convertBody_ok (body_ok_of_convert hconv)).2.2.2.2.2.2.2.1
    rw [pyGetD_none hget] at hdt
    have hpoly : DeityType.ofVal (PyVal.str "polytheistic") =
        Except.ok DeityType.polytheistic := rfl
    rw [hpoly] at hdt
    injection hdt with hdt
    exact hdt.symm
  · intro kvs v m hget herr
    cases hb : convertBody kvs with
    | error c => exact ⟨c, convert_of_body_error hb⟩
    | ok r =>
      exfalso
      have hdt := (convertBody_ok hb).2.2.2.2.2.2.2.1
      rw [pyGetD_some hget, herr] at hdt
      exact Except.noConfusion hdt

/-- C4 witness: a valid explicit value, the absent-key default and an
invalid value, each exercised on concrete payloads. -/
theorem c4_witness :
    (Religion.mk "Unnamed Religion" "" DeityType.animistic "Turkish"
      [Deity.mk "Aria" "Dawn" "light" "bringer of light" ["kind"] ["sun"]]
      [] [] [] [] (RewardPunishment.mk ["bliss"] [] "rebirth" []) [] [] [] [] "" "").deity_type
      = DeityType.animistic ∧
    religionDefault.deity_type = DeityType.polytheistic ∧
    ∃ c, ReligionGenerator.convert_to_models (PyVal.dict payloadBadDeityType) =
      Except.error ("Data conversion error: " ++ c) :=
  ⟨c4_deity_type_coercion.1 payloadAnimistic "animistic" DeityType.animistic _ rfl rfl rfl,
   c4_deity_type_coercion.2.1 okPayload religionDefault rfl rfl,
   c4_deity_type_coercion.2.2 payloadBadDeityType "cosmic"
     ("\x27cosmic\x27 is not a valid DeityType") rfl rfl⟩

/-- C7: coercion is atomic — the result is either a complete record or
a single error whose message wraps the original cause with the data
conversion prefix; any failure of the walk body surfaces exactly so. -/
theorem c7_conversion_atomic_wrapped (kvs : List (String × PyVal)) :
    ((∃ r, ReligionGenerator.convert_to_models (PyVal.dict kvs) = Except.ok r) ∨
      (∃ c, ReligionGenerator.convert_to_models (PyVal.dict kvs) =
        Except.error ("Data conversion error: " ++ c))) ∧
    (∀ c, convertBody kvs = Except.error c →
      ReligionGenerator.convert_to_models (PyVal.dict kvs) =
        Except.error ("Data conversion error: " ++ c)) := by
  constructor
  · cases hb : convertBody kvs with
    | error c => exact Or.inr ⟨c, convert_of_body_error hb⟩
    | ok r => exact Or.inl ⟨r, convert_of_body_ok hb⟩
  · intro c hb
    exact convert_of_body_error hb

/-- C7 witness: a concrete failing walk is wrapped with the data
conversion prefix around the original cause. -/
theorem c7_witness :
    convertBody [] = Except.error "field required: rewards" ∧
    ReligionGenerator.convert_to_models (PyVal.dict []) =
      Except.error ("Data conversion error: " ++ "field required: rewards") :=
  ⟨rfl, (c7_conversion_atomic_wrapped []).2 "field required: rewards" rfl⟩

/-- C10 counterexample: a payload with no top-level `language` key on
which coercion does not succeed at all (no `reward_punishment`),
refuting the unconditional "coercion succeeds with language Turkish". -/
theorem c10_counterexample :
    pyGet [("name", PyVal.str "X")] "language" = none ∧
    ReligionGenerator.convert_to_models (PyVal.dict [("name", PyVal.str "X")]) =
      Except.error ("Data conversion error: " ++ "field required: rewards") :=
  ⟨rfl, rfl⟩

/-- C10 (amended): whenever coercion succeeds on a payload with no
top-level `language` key, the language of the resulting record is the
literal default "Turkish". -/
theorem c10_language_default_turkish
    (kvs : List (String × PyVal)) (r : Religion)
    (hlang : pyGet kvs "language" = none)
    (h : ReligionGenerator.convert_to_models (PyVal.dict kvs) = Except.ok r) :
    r.language = "Turkish" := by
  have hl := (convertBody_ok (body_ok_of_convert h)).2.2.2.2.2.2.2.2.2.2.1
  rw [pyGetD_none hlang] at hl
  have hstr : asStr (PyVal.str "Turkish") = Except.ok "Turkish" := rfl
  rw [hstr] at hl
  injection hl with hl
  exact hl.symm

/-- C10 witness: the sample payload has no `language` key and coerces
to a record whose language is "Turkish". -/
theorem c10_witness : religionDefault.language = "Turkish" :=
  c10_language_default_turkish okPayload religionDefault rfl rfl

/-- C5: the two failure modes of response parsing.  When either brace
is missing, the result is the extraction error, for every `loads` —
i.e. before any JSON parsing is attempted; when both braces are found
and the sliced substring fails to parse, the result is the distinct
JSON parse error carrying the underlying parser message. -/
theorem c5_parse_response_errors :
    (∀ (loads : String → Except String PyVal) (text : String),
      strFind text lbrace = none ∨ strRfind text rbrace = none →
      GeminiClient.parse_response loads text =
        Except.error "Response processing error: Valid JSON format not found") ∧
    (∀ (loads : String → Except String PyVal) (text : String) (s e : Nat) (msg : String),
      strFind text lbrace = some s → strRfind text rbrace = some e →
      loads (pySlice text s (e + 1)) = Except.error msg →
      GeminiClient.parse_response loads text =
        Except.error ("JSON parse error: " ++ msg)) := by
  constructor
  · intro loads text h
    rcases h with h | h
    · cases h2 : strRfind text rbrace <;>
        simp [GeminiClient.parse_response, h, h2]
    · cases h1 : strFind text lbrace <;>
        simp [GeminiClient.parse_response, h1, h]
  · intro loads text s e msg h1 h2 h3
    simp [GeminiClient.parse_response, h1, h2, h3]

/-- C5 witness: a brace-free text yields the extraction error for a
parser that would otherwise succeed, and a braced text whose slice the
parser rejects yields the parse error with the parser message. -/
theorem c5_witness :
    GeminiClient.parse_response (fun _ => Except.ok (PyVal.dict [])) "no json here" =
      Except.error "Response processing error: Valid JSON format not found" ∧
    GeminiClient.parse_response (fun _ => Except.error "Expecting value") "a\x7b]\x7d b" =
      Except.error ("JSON parse error: " ++ "Expecting value") :=
  ⟨c5_parse_response_errors.1 (fun _ => Except.ok (PyVal.dict [])) "no json here"
      (Or.inl rfl),
   c5_parse_response_errors.2 (fun _ => Except.error "Expecting value") "a\x7b]\x7d b"
      1 3 "Expecting value" rfl rfl rfl⟩

theorem string_append_assoc (a b c : String) : a ++ b ++ c = a ++ (b ++ c) := by
  rcases a with ⟨la⟩
  rcases b with ⟨lb⟩
  rcases c with ⟨lc⟩
  show String.mk (la ++ lb ++ lc) = String.mk (la ++ (lb ++ lc))
  rw [List.append_assoc]

/-- C9: for a target language outside the fixed table, the prompt
builder does not fail (it is a total function) and the produced prompt
contains the Turkish directive text verbatim. -/
theorem c9_unknown_language_turkish_fallback
    (theme culture deity_type : Option String) (complexity language : String)
    (h : GeminiClient.language_map.find? (fun kv => kv.1 = language) = none) :
    ∃ pre post,
      GeminiClient.create_religion_prompt theme culture complexity deity_type language =
        pre ++ turkishInstruction ++ post := by
  have hinstr : GeminiClient.get_language_instructions language = turkishInstruction := by
    rw [GeminiClient.get_language_instructions, h]
  refine ⟨"\nYou are a creative religion designer. Create a detailed religion system according to the following criteria:\n\n" ++
      "Theme: " ++ pyOr theme "general" ++ "\n" ++
      "Culture: " ++ pyOr culture "universal" ++ "\n" ++
      "Complexity: " ++ complexity ++ "\n" ++
      "Deity Type: " ++ pyOr deity_type "polytheistic" ++ "\n" ++
      "Language: " ++ language ++ "\n\n",
    "\n\nPlease create a religion system in the following JSON format:\n\n" ++
      religionJsonTemplate language ++
      "\n\nIMPORTANT: Set the deity_type field to \"" ++ pyOr deity_type "polytheistic" ++
      "\" exactly. Create a deity system that matches this parameter.\n\n" ++
      "- monotheistic: Single deity (example: Christianity, Islam)\n" ++
      "- polytheistic: Multiple deities (example: Ancient Greek, Norse mythology)  \n" ++
      "- pantheistic: God=Universe (example: Spinoza\x27s philosophy)\n" ++
      "- animistic: Everything has a spirit (example: Shamanism, indigenous religions)\n\n" ++
      "Please create a creative and detailed religion system. Fill every section and create a consistent mythology.\n", ?_⟩
  rw [GeminiClient.create_religion_prompt, hinstr]
  simp only [string_append_assoc]

/-- C9 witness: the unsupported language "Klingon" produces a prompt
containing the Turkish directive verbatim. -/
theorem c9_witness :
    ∃ pre post,
      GeminiClient.create_religion_prompt none none "medium" none "Klingon" =
        pre ++ turkishInstruction ++ post :=
  c9_unknown_language_turkish_fallback none none none "medium" "Klingon" rfl

/-- A backend stand-in that is never consulted on the paths under
study. -/
def gcNone : String → Except String String := fun _ => Except.ok "ok"

/-- A JSON parser stand-in returning an empty mapping. -/
def loadsEmpty : String → Except String PyVal := fun _ => Except.ok (PyVal.dict [])

/-- A concrete religion with a nonempty ritual list and core beliefs,
used to exercise the expansion operation. -/
def sampleReligion : Religion :=
  Religion.mk "Solis" "a sun cult" DeityType.polytheistic "Turkish" []
    [] [Ritual.mk "Dawn watch" "greeting" "daily" "all" [] [] "high"] [] []
    (RewardPunishment.mk [] [] "" []) [] ["light endures"] [] [] "elders" "born of dawn"

/-- C3 counterexample: expanding with the unsupported kind "weather"
does not return without error — it fails with the unsupported component
type error (raised by the component-prompt table check before any
backend call), though the religion is indeed left unchanged. -/
theorem c3_counterexample :
    (ReligionGenerator.expand_religion gcNone loadsEmpty sampleReligion "weather").2 =
      Except.error ("Unsupported component type: " ++ "weather") ∧
    (ReligionGenerator.expand_religion gcNone loadsEmpty sampleReligion "weather").1 =
      sampleReligion :=
  ⟨rfl, rfl⟩

/-- C3 (amended): for every component kind outside deity/ritual/legend,
`expand_religion` fails with the unsupported component type error
(raised inside `generate_specific_component` before any backend call)
and leaves the religion unchanged — no silent no-op. -/
theorem c3_unsupported_kind_raises
    (gc : String → Except String String) (loads : String → Except String PyVal)
    (religion : Religion) (component_type : String)
    (h : component_type ∉ (["deity", "ritual", "legend"] : List String)) :
    ReligionGenerator.expand_religion gc loads religion component_type =
      (religion, Except.error ("Unsupported component type: " ++ component_type)) := by
  simp only [List.mem_cons, List.mem_singleton, not_or] at h
  obtain ⟨h1, h2, h3, _⟩ := h
  have h1' : ("deity" : String) ≠ component_type := fun he => h1 he.symm
  have h2' : ("ritual" : String) ≠ component_type := fun he => h2 he.symm
  have h3' : ("legend" : String) ≠ component_type := fun he => h3 he.symm
  simp [ReligionGenerator.expand_religion, ReligionGenerator.generate_specific_component,
    GeminiClient.generate_specific_component, GeminiClient.component_prompts,
    List.find?, h1', h2', h3', h1, h2, h3]

/-- C3 witness: the amended statement at the concrete kind "weather". -/
theorem c3_witness :
    ("weather" ∉ (["deity", "ritual", "legend"] : List String)) ∧
    ReligionGenerator.expand_religion gcNone loadsEmpty sampleReligion "weather" =
      (sampleReligion, Except.error ("Unsupported component type: " ++ "weather")) :=
  ⟨by decide,
   c3_unsupported_kind_raises gcNone loadsEmpty sampleReligion "weather" (by decide)⟩

/-- C8: a successful deity expansion returns the religion with exactly
one deity appended and every other field — in particular every other
list — unchanged. -/
theorem c8_expand_deity_appends_one
    (gc : String → Except String String) (loads : String → Except String PyVal)
    (religion r2 : Religion)
    (h : (ReligionGenerator.expand_religion gc loads religion "deity").2 = Except.ok r2) :
    (ReligionGenerator.expand_religion gc loads religion "deity").1 = r2 ∧
    ∃ d, r2 = { religion with deities := religion.deities ++ [d] } := by
  cases hg : ReligionGenerator.generate_specific_component gc loads "deity"
      ("Bu din için uygun bir " ++ "deity" ++ " üret") (some religion) with
  | error e0 =>
    have hred : ReligionGenerator.expand_religion gc loads religion "deity" =
        (religion, Except.error e0) := by
      unfold ReligionGenerator.expand_religion
      rw [hg]
    rw [hred] at h
    exact Except.noConfusion h
  | ok comp =>
    cases hd : mkDeity comp with
    | error e0 =>
      have hred : ReligionGenerator.expand_religion gc loads religion "deity" =
          (religion, Except.error e0) := by
        unfold ReligionGenerator.expand_religion
        rw [hg]
        simp [hd]
      rw [hred] at h
      exact Except.noConfusion h
    | ok d =>
      have hred : ReligionGenerator.expand_religion gc loads religion "deity" =
          ({ religion with deities := religion.deities ++ [d] },
           Except.ok { religion with deities := religion.deities ++ [d] }) := by
        unfold ReligionGenerator.expand_religion
        rw [hg]
        simp [hd]
      rw [hred] at h
      have h2 : Except.ok { religion with deities := religion.deities ++ [d] } =
          Except.ok r2 := h
      injection h2 with h2
      subst h2
      exact ⟨by rw [hred], d, rfl⟩

/-- A backend stand-in answering with a braced response. -/
def gcDeity : String → Except String String := fun _ => Except.ok "\x7bd\x7d"

/-- A JSON parser stand-in returning the full deity element. -/
def loadsDeity : String → Except String PyVal := fun _ => Except.ok fullDeity

/-- `sampleReligion` after appending the deity parsed from
`loadsDeity`. -/
def expandedSample : Religion :=
  { sampleReligion with
    deities := sampleReligion.deities ++
      [Deity.mk "Aria" "Dawn" "light" "bringer of light" ["kind"] ["sun"]] }

/-- C8 witness: a concrete successful deity expansion appends exactly
one deity to the sample religion. -/
theorem c8_witness :
    (ReligionGenerator.expand_religion gcDeity loadsDeity sampleReligion "deity").1 =
      expandedSample ∧
    ∃ d, expandedSample = { sampleReligion with deities := sampleReligion.deities ++ [d] } :=
  c8_expand_deity_appends_one gcDeity loadsDeity sampleReligion expandedSample rfl

theorem foldl_collect (g : Nat → Except String Religion) :
    ∀ (l : List Nat) (acc : List Religion),
      l.foldl (fun vs i =>
        match g i with
        | Except.ok r => vs ++ [r]
        | Except.error _ => vs) acc =
      acc ++ l.filterMap (fun i => toOptionE (g i)) := by
  intro l
  induction l with
  | nil => intro acc; simp
  | cons a as ih =>
    intro acc
    simp only [List.foldl_cons, List.filterMap_cons]
    cases hg : g a with
    | ok r => simp [hg, toOptionE, ih]
    | error m => simp [hg, toOptionE, ih]

/-- C6: generating variations performs one pipeline invocation per
index `i` below `count` — same theme, culture from the fixed 5-element
list at `i mod 5`, complexity from the fixed 3-element list at
`i mod 3`, deity type and language left at their defaults — keeping
the successes in invocation order and skipping failures, never failing
itself. -/
theorem c6_variations_rotation (gc : String → Except String String)
    (loads : String → Except String PyVal) (base_theme : String) (count : Nat) :
    cultures.length = 5 ∧ complexities.length = 3 ∧
    ReligionGenerator.generate_religion_variations gc loads base_theme count =
      (List.range count).filterMap (fun i =>
        toOptionE (ReligionGenerator.generate_religion gc loads (some base_theme)
          (some (cultures.getD (i % 5) "")) (complexities.getD (i % 3) "")
          none "Turkish")) := by
  refine ⟨rfl, rfl, ?_⟩
  have hdef : ReligionGenerator.generate_religion_variations gc loads base_theme count =
      (List.range count).foldl (fun vs i =>
        match ReligionGenerator.generate_religion gc loads (some base_theme)
            (some (cultures.getD (i % 5) "")) (complexities.getD (i % 3) "")
            none "Turkish" with
        | Except.ok r => vs ++ [r]
        | Except.error _ => vs) [] := rfl
  rw [hdef, foldl_collect]
  simp
